import Mathlib

/-
  Verification development for the Stripe BIN Lookup Service
  (repository GunYamazakii/Stripe-Charge-2-).

  The Flask application implementing the card-validation service is not
  present in the repository snapshot; only its README documentation and the
  specification describe it.  The card-service components below are therefore
  modelled from the spec (each such definition says so in its doc comment).
  The Home page component of the telegram-login-diwas client is present in
  the snapshot and is embedded from its source.
-/

namespace CardService

/-- Numeric value of a decimal digit character. -/
def digitVal (c : Char) : Nat := c.toNat - 48

/-- Modelled from the spec: the Normalizer removes the characters space and
dash from the raw input (spec section 4.1). -/
def stripFormatting (s : String) : String :=
  ⟨s.data.filter (fun c => !(c == ' ' || c == '-'))⟩

/-- Modelled from the spec: a CanonicalCardNumber is a string of decimal
digits only, of length 12 to 19 (spec section 3). -/
def isCanonical (s : String) : Bool :=
  s.data.all Char.isDigit && decide (12 ≤ s.data.length) && decide (s.data.length ≤ 19)

/-- Modelled from the spec: the Normalizer strips formatting and fails with
InvalidFormat when a non-digit remains or the length is outside 12 to 19
(spec section 4.1); the failure is rendered as none. -/
def normalize (s : String) : Option String :=
  if isCanonical (stripFormatting s) then some (stripFormatting s) else none

/-- Doubling step of the Luhn algorithm: double the digit and subtract 9
when the result is at least 10. -/
def luhnDouble (d : Nat) : Nat := if 10 ≤ 2 * d then 2 * d - 9 else 2 * d

/-- Modelled from the spec: the Luhn sum over a digit list ordered from the
rightmost digit, with a flag saying whether the current digit is doubled
(spec section 4.2). -/
def luhnSumFlag : List Nat → Bool → Nat
  | [], _ => 0
  | d :: ds, b => (if b then luhnDouble d else d) + luhnSumFlag ds (!b)

/-- Modelled from the spec: the Luhn validator; valid iff the Luhn sum of the
digits, taken from the rightmost digit with every second digit doubled, is
congruent to 0 mod 10 (spec section 4.2). -/
def luhn_valid (s : String) : Bool :=
  decide (luhnSumFlag ((s.data.reverse).map digitVal) false % 10 = 0)

/-- The transform the claim describes at position i counted from the right:
every second digit (odd position, 0-based from the rightmost) is doubled and
adjusted. -/
def luhnTransform (i d : Nat) : Nat := if i % 2 = 1 then luhnDouble d else d

/-- Checksum as the claim words it: sum of the position-transformed digits,
positions counted from i upward along a rightmost-first digit list. -/
def luhnChecksumFrom : Nat → List Nat → Nat
  | _, [] => 0
  | i, d :: ds => luhnTransform i d + luhnChecksumFrom (i + 1) ds

/-- Checksum of a digit string per the claim: digits taken from the
rightmost, every second one doubled and adjusted, all summed. -/
def luhnChecksum (s : String) : Nat :=
  luhnChecksumFrom 0 ((s.data.reverse).map digitVal)

/-- Card networks the classifier can produce (spec section 3). -/
inductive CardType
  | Visa
  | Mastercard
  | AmericanExpress
  | Discover
  | Unknown
deriving DecidableEq

/-- Numeric value of the first k digits of the string. -/
def prefixNum (s : String) (k : Nat) : Nat :=
  ((s.data.take k).map digitVal).foldl (fun a d => 10 * a + d) 0

/-- Inclusive range test on naturals, as a boolean. -/
def between (lo x hi : Nat) : Bool := decide (lo ≤ x) && decide (x ≤ hi)

/-- Modelled from the spec: Visa rule of the classifier table, starts with 4
and length 13, 16 or 19 (spec section 4.3). -/
def visaRule (s : String) : Bool :=
  prefixNum s 1 == 4 &&
    (s.data.length == 13 || s.data.length == 16 || s.data.length == 19)

/-- Modelled from the spec: Mastercard rule, two-digit lead 51 to 55 or
four-digit lead 2221 to 2720, length 16 (spec section 4.3). -/
def mastercardRule (s : String) : Bool :=
  (between 51 (prefixNum s 2) 55 || between 2221 (prefixNum s 4) 2720) &&
    s.data.length == 16

/-- Modelled from the spec: American Express rule, lead 34 or 37, length 15
(spec section 4.3). -/
def amexRule (s : String) : Bool :=
  (prefixNum s 2 == 34 || prefixNum s 2 == 37) && s.data.length == 15

/-- Modelled from the spec: Discover rule, lead 6011 or 65 or three-digit
lead 644 to 649, length 16 (spec section 4.3). -/
def discoverRule (s : String) : Bool :=
  (prefixNum s 4 == 6011 || prefixNum s 2 == 65 ||
    between 644 (prefixNum s 3) 649) && s.data.length == 16

/-- Modelled from the spec: the ordered rule table of the classifier, as an
ordered list of predicate and label pairs (spec sections 4.3 and 9). -/
def ruleTable : List ((String → Bool) × CardType) :=
  [(visaRule, CardType.Visa), (mastercardRule, CardType.Mastercard),
   (amexRule, CardType.AmericanExpress), (discoverRule, CardType.Discover)]

/-- Modelled from the spec: the Card Classifier evaluates the rule table top
to bottom, first match wins, default Unknown (spec section 4.3). -/
def classify (s : String) : CardType :=
  match ruleTable.find? (fun r => r.1 s) with
  | some r => r.2
  | none => CardType.Unknown

/-- The claim side of C3: the classification written as one chain of
first-match-wins conditionals over the leading-digit value and the length,
following the claim text. -/
def classifySpec (s : String) : CardType :=
  if prefixNum s 1 = 4 ∧
      (s.data.length = 13 ∨ s.data.length = 16 ∨ s.data.length = 19) then
    CardType.Visa
  else if ((51 ≤ prefixNum s 2 ∧ prefixNum s 2 ≤ 55) ∨
      (2221 ≤ prefixNum s 4 ∧ prefixNum s 4 ≤ 2720)) ∧ s.data.length = 16 then
    CardType.Mastercard
  else if (prefixNum s 2 = 34 ∨ prefixNum s 2 = 37) ∧ s.data.length = 15 then
    CardType.AmericanExpress
  else if (prefixNum s 4 = 6011 ∨ prefixNum s 2 = 65 ∨
      (644 ≤ prefixNum s 3 ∧ prefixNum s 3 ≤ 649)) ∧ s.data.length = 16 then
    CardType.Discover
  else CardType.Unknown

/-- Modelled from the spec: the leading digits of the masked form are
rendered as star blocks of four joined by dashes, grouped from the left
(spec section 4.4). -/
def starChars : Nat → List Char
  | 0 => []
  | 1 => ['*']
  | 2 => ['*', '*']
  | 3 => ['*', '*', '*']
  | 4 => ['*', '*', '*', '*']
  | n + 5 => '*' :: '*' :: '*' :: '*' :: '-' :: starChars (n + 1)

/-- The last four characters of a character list. -/
def lastFourChars (l : List Char) : List Char := l.drop (l.length - 4)

/-- The last four digits of a card number, as a string. -/
def lastFour (s : String) : String := ⟨lastFourChars s.data⟩

/-- Modelled from the spec: the Masking Utility hides all but the last four
digits behind star blocks joined by dashes (spec section 4.4). -/
def mask (s : String) : String :=
  ⟨starChars (s.data.length - 4) ++ '-' :: lastFourChars s.data⟩

/-- Error taxonomy of the service (spec section 7), restricted to the
conditions the claims mention. -/
inductive ApiError
  | MissingParameter
  | InvalidFormat
  | LuhnCheckFailed
  | BinLookupFailed
deriving DecidableEq

/-- Modelled from the spec: the structured record a successful BIN lookup
parses out of the remote payload (spec section 3). -/
structure BinData where
  scheme : String
  cardKind : String
  issuerName : String
  countryName : String
  bankName : String
deriving DecidableEq

/-- Modelled from the spec: the possible outcomes of one outbound call to
the external BIN directory; a response with a missing payload stands for a
malformed body (spec section 4.5). -/
inductive DirectoryOutcome
  | networkError
  | timeout
  | response (status : Nat) (payload : Option BinData)
deriving DecidableEq

/-- Modelled from the spec: the BIN Lookup Client parses a 200 response with
a well-formed payload and maps every failure mode - network error, timeout,
non-200 status, malformed payload - to BinLookupFailed (spec section 4.5). -/
def binLookup : DirectoryOutcome → Except ApiError BinData
  | DirectoryOutcome.networkError => Except.error ApiError.BinLookupFailed
  | DirectoryOutcome.timeout => Except.error ApiError.BinLookupFailed
  | DirectoryOutcome.response status payload =>
    if status = 200 then
      match payload with
      | some d => Except.ok d
      | none => Except.error ApiError.BinLookupFailed
    else Except.error ApiError.BinLookupFailed

/-- Modelled from the spec: the client makes a single outbound attempt per
request, so it consumes only the first outcome the transport would ever
deliver (spec section 4.5). -/
def binLookupVia (transport : Nat → DirectoryOutcome) : Except ApiError BinData :=
  binLookup (transport 0)

/-- Response envelope of the dedicated BIN lookup endpoint. -/
structure BinResponse where
  status : Nat
  success : Bool
  binEcho : String
  data : Option BinData
  error : Option ApiError
  timestamp : Nat
deriving DecidableEq

/-- Modelled from the spec: the dedicated lookup endpoint runs the BIN
Lookup Client only and renders a failure as HTTP 404 with BinLookupFailed
(spec section 4.7). -/
def binEndpoint (code : String) (transport : Nat → DirectoryOutcome)
    (now : Nat) : BinResponse :=
  match binLookupVia transport with
  | Except.ok d => ⟨200, true, code, some d, none, now⟩
  | Except.error e => ⟨404, false, code, none, some e, now⟩

/-- Payload of the validation endpoint; the card fields are absent when
normalization rejected the input. -/
structure ValidatePayload where
  card_number : Option String
  is_valid : Bool
  card_type : Option CardType
  card_length : Option Nat
deriving DecidableEq

/-- Response envelope of the validation endpoint. -/
structure ValidateResponse where
  status : Nat
  success : Bool
  payload : Option ValidatePayload
  error : Option ApiError
  timestamp : Nat
deriving DecidableEq

/-- Modelled from the spec: the validation endpoint; missing cc is a 400
MissingParameter error, a format or length failure is reported as HTTP 200
with is_valid false, and otherwise the Luhn verdict, classification and
masked echo are reported with HTTP 200 (spec section 4.7). -/
def validateHandler (cc : Option String) (now : Nat) : ValidateResponse :=
  match cc with
  | none => ⟨400, false, none, some ApiError.MissingParameter, now⟩
  | some raw =>
    match normalize raw with
    | none => ⟨200, true, some ⟨none, false, none, none⟩, none, now⟩
    | some n =>
      ⟨200, true,
        some ⟨some (mask n), luhn_valid n, some (classify n), some n.data.length⟩,
        none, now⟩

/-- Configuration of the Charge Simulator: amount in minor units and
currency (spec section 6). -/
structure ChargeConfig where
  amountMinor : Nat
  currency : String
deriving DecidableEq

/-- The card block inside a simulated payment method. -/
structure PaymentCard where
  last4 : String
deriving DecidableEq

/-- The simulated payment method. -/
structure PaymentMethod where
  card : PaymentCard
deriving DecidableEq

/-- Modelled from the spec: the synthetic charge record with a
timestamp-derived identifier, the configured amount in minor units, and a
static approved outcome (spec sections 3 and 4.6). -/
structure SimulatedCharge where
  id : String
  amount : Nat
  amount_captured : Nat
  currency : String
  chargeStatus : String
  holder : String
  payment_method : PaymentMethod
  networkStatus : String
  created : Nat
deriving DecidableEq

/-- Modelled from the spec: the Charge Simulator synthesizes the charge from
the canonical number, cardholder name, configuration and current timestamp;
it performs no outbound call (spec section 4.6). -/
def chargeSimulator (n : String) (holder : String) (cfg : ChargeConfig)
    (now : Nat) : SimulatedCharge :=
  ⟨("ch_") ++ Nat.repr now, cfg.amountMinor, cfg.amountMinor, cfg.currency,
    ("succeeded"), holder, ⟨⟨lastFour n⟩⟩, ("approved_by_network"), now⟩

/-- The per-request validation block of the combined endpoint. -/
structure CardValidationResult where
  is_valid : Bool
  card_number : String
  card_type : CardType
  card_length : Nat
  luhn_check : Bool
deriving DecidableEq

/-- Payload of the combined endpoint on success. -/
structure StripePayload where
  card_validation : CardValidationResult
  bin_lookup : Option BinData
  stripe_charge : SimulatedCharge
deriving DecidableEq

/-- Response envelope of the combined endpoint; maskedEcho carries the
masked card number echoed in the Luhn failure error body. -/
structure StripeResponse where
  status : Nat
  success : Bool
  payload : Option StripePayload
  maskedEcho : Option String
  error : Option ApiError
  timestamp : Nat
deriving DecidableEq

/-- Modelled from the spec: the combined endpoint runs the full pipeline; a
Luhn failure is HTTP 400 with the masked echo and LuhnCheckFailed, otherwise
HTTP 200 with the validation block, the best-effort enrichment block
(omitted on lookup failure) and the simulated charge (spec section 4.7). -/
def stripeHandler (cc : Option String) (holder : Option String)
    (transport : Nat → DirectoryOutcome) (cfg : ChargeConfig)
    (now : Nat) : StripeResponse :=
  match cc with
  | none => ⟨400, false, none, none, some ApiError.MissingParameter, now⟩
  | some raw =>
    match normalize raw with
    | none => ⟨400, false, none, none, some ApiError.InvalidFormat, now⟩
    | some n =>
      if luhn_valid n then
        ⟨200, true,
          some ⟨⟨true, mask n, classify n, n.data.length, true⟩,
            (binLookupVia transport).toOption,
            chargeSimulator n (holder.getD ("Cardholder")) cfg now⟩,
          none, none, now⟩
      else ⟨400, false, none, some (mask n), some ApiError.LuhnCheckFailed, now⟩

end CardService

namespace HomePage

/-- State of the Home component relevant to the mount effect, embedded from
client/src/pages/Home.tsx of telegram-login-diwas: the isLoggedIn and
userInfo and showAnimation pieces of React state, over an abstract type of
parsed user values. -/
structure HomeState (α : Type) where
  isLoggedIn : Bool
  userInfo : Option α
  showAnimation : Bool

/-- The initial state of the Home component: logged out, no user info. -/
def initialHomeState (α : Type) : HomeState α := ⟨false, none, false⟩

/-- The console message logged by the catch branch of the mount effect. -/
def parseErrorLog : String := "Failed to parse Telegram user data:"

/-- The mount effect of the Home component, embedded from Home.tsx lines 12
to 32: first the Manus OAuth branch, then the localStorage branch whose
JSON.parse call (a throwing operation, passed in as a function returning
Except) sits inside a try-catch; the catch branch only logs.  The result is
an Except so that an uncaught exception would surface as an error value. -/
def homeMount (α : Type) (isAuthenticated : Bool) (user : Option α)
    (stored : Option String) (jsonParse : String → Except String α)
    (s : HomeState α) : Except String (HomeState α × List String) :=
  let s1 : HomeState α :=
    match isAuthenticated, user with
    | true, some u => ⟨true, some u, true⟩
    | _, _ => s
  match stored with
  | none => Except.ok (s1, [])
  | some str =>
    match jsonParse str with
    | Except.ok u => Except.ok (⟨true, some u, true⟩, [])
    | Except.error _ => Except.ok (s1, [parseErrorLog])

end HomePage

namespace CardService

lemma parity_flip (i : Nat) : decide ((i + 1) % 2 = 1) = !decide (i % 2 = 1) := by
  rcases Nat.mod_two_eq_zero_or_one i with h | h <;> simp [Nat.add_mod, h]

lemma luhnChecksumFrom_eq (l : List Nat) :
    ∀ i, luhnChecksumFrom i l = luhnSumFlag l (decide (i % 2 = 1)) := by
  induction l with
  | nil => intro i; rfl
  | cons d ds ih =>
    intro i
    show luhnTransform i d + luhnChecksumFrom (i + 1) ds = _
    rw [ih (i + 1), parity_flip, luhnSumFlag, luhnTransform]
    rcases Nat.mod_two_eq_zero_or_one i with h | h <;> simp [h]

lemma bool_false_not_true {b : Bool} (h : b = false) : ¬ b = true := by
  simp [h]

lemma visaRule_iff (s : String) : visaRule s = true ↔
    (prefixNum s 1 = 4 ∧
      (s.data.length = 13 ∨ s.data.length = 16 ∨ s.data.length = 19)) := by
  simp [visaRule] <;> tauto

lemma mastercardRule_iff (s : String) : mastercardRule s = true ↔
    (((51 ≤ prefixNum s 2 ∧ prefixNum s 2 ≤ 55) ∨
      (2221 ≤ prefixNum s 4 ∧ prefixNum s 4 ≤ 2720)) ∧ s.data.length = 16) := by
  simp [mastercardRule, between] <;> tauto

lemma amexRule_iff (s : String) : amexRule s = true ↔
    ((prefixNum s 2 = 34 ∨ prefixNum s 2 = 37) ∧ s.data.length = 15) := by
  simp [amexRule] <;> tauto

lemma discoverRule_iff (s : String) : discoverRule s = true ↔
    ((prefixNum s 4 = 6011 ∨ prefixNum s 2 = 65 ∨
      (644 ≤ prefixNum s 3 ∧ prefixNum s 3 ≤ 649)) ∧ s.data.length = 16) := by
  simp [discoverRule, between] <;> tauto

lemma classify_eq_classifySpec (s : String) : classify s = classifySpec s := by
  unfold classify classifySpec ruleTable
  simp only [List.find?]
  cases h1 : visaRule s with
  | true => rw [if_pos ((visaRule_iff s).mp h1)]
  | false =>
    rw [if_neg (fun hc => bool_false_not_true h1 ((visaRule_iff s).mpr hc))]
    cases h2 : mastercardRule s with
    | true => rw [if_pos ((mastercardRule_iff s).mp h2)]
    | false =>
      rw [if_neg
        (fun hc => bool_false_not_true h2 ((mastercardRule_iff s).mpr hc))]
      cases h3 : amexRule s with
      | true => rw [if_pos ((amexRule_iff s).mp h3)]
      | false =>
        rw [if_neg
          (fun hc => bool_false_not_true h3 ((amexRule_iff s).mpr hc))]
        cases h4 : discoverRule s with
        | true => rw [if_pos ((discoverRule_iff s).mp h4)]
        | false =>
          rw [if_neg
            (fun hc => bool_false_not_true h4 ((discoverRule_iff s).mpr hc))]

lemma prefixNum_congr (s t : String) (h4 : s.data.take 4 = t.data.take 4)
    (k : Nat) (hk : k ≤ 4) : prefixNum s k = prefixNum t k := by
  unfold prefixNum
  have hs : s.data.take k = (s.data.take 4).take k := by
    rw [List.take_take, Nat.min_eq_left hk]
  have ht : t.data.take k = (t.data.take 4).take k := by
    rw [List.take_take, Nat.min_eq_left hk]
  rw [hs, ht, h4]

lemma classify_congr (s t : String) (h4 : s.data.take 4 = t.data.take 4)
    (hl : s.data.length = t.data.length) : classify s = classify t := by
  have e1 := prefixNum_congr s t h4 1 (by omega)
  have e2 := prefixNum_congr s t h4 2 (by omega)
  have e3 := prefixNum_congr s t h4 3 (by omega)
  have e4 := prefixNum_congr s t h4 4 (by omega)
  rw [classify_eq_classifySpec, classify_eq_classifySpec]
  unfold classifySpec
  rw [e1, e2, e3, e4, hl]

lemma starChars_mem (n : Nat) : ∀ c ∈ starChars n, c = '*' ∨ c = '-' := by
  induction n using Nat.strong_induction_on with
  | _ n ih =>
    match n with
    | 0 => intro c hc; simp [starChars] at hc
    | 1 => intro c hc; simp [starChars] at hc; simp [hc]
    | 2 => intro c hc; simp [starChars] at hc; simp [hc]
    | 3 => intro c hc; simp [starChars] at hc; simp [hc]
    | 4 => intro c hc; simp [starChars] at hc; simp [hc]
    | m + 5 =>
      intro c hc
      simp [starChars] at hc
      rcases hc with h | h | h
      · exact Or.inl h
      · exact Or.inr h
      · exact ih (m + 1) (by omega) c h

lemma starChars_head (n : Nat) (h : 1 ≤ n) :
    ∃ t, starChars n = '*' :: t := by
  match n with
  | 1 => exact ⟨_, rfl⟩
  | 2 => exact ⟨_, rfl⟩
  | 3 => exact ⟨_, rfl⟩
  | 4 => exact ⟨_, rfl⟩
  | m + 5 => exact ⟨_, rfl⟩

lemma mask_data (s : String) :
    (mask s).data =
      (starChars (s.data.length - 4) ++ ['-']) ++ lastFourChars s.data := by
  simp [mask]

lemma mask_ne_self (s : String) (h : isCanonical s = true) : mask s ≠ s := by
  intro he
  have hd : (mask s).data = s.data := congrArg String.data he
  have hlen : 12 ≤ s.data.length := by
    unfold isCanonical at h
    simp only [Bool.and_eq_true, decide_eq_true_eq] at h
    exact h.1.2
  have hdig : s.data.all Char.isDigit = true := by
    unfold isCanonical at h
    simp only [Bool.and_eq_true, decide_eq_true_eq] at h
    exact h.1.1
  obtain ⟨t, ht⟩ := starChars_head (s.data.length - 4) (by omega)
  rw [mask_data, ht] at hd
  cases hs : s.data with
  | nil => rw [hs] at hlen; simp at hlen
  | cons c cs =>
    rw [hs] at hd
    have hc : c = '*' := by
      have := congrArg (fun l => l.head?) hd
      simpa using this.symm
    have : c.isDigit = true := by
      rw [hs] at hdig
      simp [List.all_cons] at hdig
      exact hdig.1
    rw [hc] at this
    simp [Char.isDigit] at this

end CardService

/-- C1 counterexample: the documented Mastercard sample number
5425233010103442 does not pass the Luhn check (its checksum is 51), so the
claim that all six documented sample numbers validate is false. -/
theorem c1_luhn_counterexample :
    CardService.luhn_valid ("5425233010103442") = false
    ∧ CardService.luhnChecksum ("5425233010103442") = 51 := by
  constructor <;> decide

/-- C1 (amended): For every digit string of length 12 to 19 the Luhn
validator accepts exactly when the rightmost-first, double-every-second-digit,
subtract-9 checksum is 0 mod 10; the two documented probes behave as
documented and five of the six documented sample numbers validate, the
Mastercard sample 5425233010103442 failing the checksum. -/
theorem c1_luhn_correct :
    (∀ s : String, CardService.isCanonical s = true →
      (CardService.luhn_valid s = true ↔ CardService.luhnChecksum s % 10 = 0))
    ∧ CardService.luhn_valid ("4532015112830366") = true
    ∧ CardService.luhn_valid ("4532015112830367") = false
    ∧ CardService.luhn_valid ("4556737586899855") = true
    ∧ CardService.luhn_valid ("5425233010103442") = false
    ∧ CardService.luhn_valid ("5105105105105100") = true
    ∧ CardService.luhn_valid ("378282246310005") = true
    ∧ CardService.luhn_valid ("6011111111111117") = true := by
  refine ⟨?_, by decide, by decide, by decide, by decide, by decide, by decide, by decide⟩
  intro s _
  unfold CardService.luhn_valid CardService.luhnChecksum
  rw [CardService.luhnChecksumFrom_eq]
  simp

/-- Witness for C1 at the documented Visa sample number. -/
theorem c1_luhn_correct_witness :
    CardService.luhn_valid ("4532015112830366") = true ↔
      CardService.luhnChecksum ("4532015112830366") % 10 = 0 :=
  c1_luhn_correct.1 ("4532015112830366") (by decide)

/-- C3: The classifier equals the claim's first-match-wins rule chain over
leading-digit value and length, its output depends only on the first four
characters and the length, it is independent of the Luhn outcome (the
Luhn-invalid probe 4532015112830367 is still classified Visa), and the three
documented classification examples hold. -/
theorem c3_classifier_correct :
    (∀ s : String, CardService.classify s = CardService.classifySpec s)
    ∧ (∀ s t : String, s.data.take 4 = t.data.take 4 →
        s.data.length = t.data.length →
        CardService.classify s = CardService.classify t)
    ∧ CardService.classify ("4532015112830366") = CardService.CardType.Visa
    ∧ CardService.classify ("378282246310005") =
        CardService.CardType.AmericanExpress
    ∧ CardService.classify ("6011111111111117") = CardService.CardType.Discover
    ∧ (CardService.classify ("4532015112830367") = CardService.CardType.Visa
        ∧ CardService.luhn_valid ("4532015112830367") = false) := by
  refine ⟨CardService.classify_eq_classifySpec, CardService.classify_congr,
    by decide, by decide, by decide, by decide, by decide⟩

/-- Witness for C3: the dependence on prefix and length applied to two
concrete strings differing only past the fourth digit. -/
theorem c3_classifier_correct_witness :
    CardService.classify ("4532015112830366") =
      CardService.classify ("4532999999999999") :=
  c3_classifier_correct.2.1 ("4532015112830366") ("4532999999999999")
    (by decide) (by decide)

/-- C7: For every canonical card number the masked form is a block of stars
and dashes followed by exactly the last four digits (every character before
the last four is a star or a dash), the documented example masks as
documented, and the full number never equals its masked echo. -/
theorem c7_mask_correct :
    (∀ s : String, CardService.isCanonical s = true →
      ∃ pre, (CardService.mask s).data = pre ++ CardService.lastFourChars s.data
        ∧ (∀ c ∈ pre, c = '*' ∨ c = '-')
        ∧ CardService.lastFourChars s.data = s.data.drop (s.data.length - 4)
        ∧ CardService.mask s ≠ s)
    ∧ CardService.mask ("4532015112830366") = ("****-****-****-0366")
    ∧ CardService.mask ("378282246310005") = ("****-****-***-0005") := by
  refine ⟨?_, by decide, by decide⟩
  intro s h
  refine ⟨CardService.starChars (s.data.length - 4) ++ ['-'],
    CardService.mask_data s, ?_, rfl, CardService.mask_ne_self s h⟩
  intro c hc
  rcases List.mem_append.mp hc with h1 | h1
  · exact CardService.starChars_mem _ c h1
  · simp at h1; simp [h1]

/-- Witness for C7 at the documented Visa sample number. -/
theorem c7_mask_correct_witness :
    ∃ pre, (CardService.mask ("4532015112830366")).data =
        pre ++ CardService.lastFourChars (("4532015112830366") : String).data
      ∧ (∀ c ∈ pre, c = '*' ∨ c = '-')
      ∧ CardService.lastFourChars (("4532015112830366") : String).data =
          (("4532015112830366") : String).data.drop
            ((("4532015112830366") : String).data.length - 4)
      ∧ CardService.mask ("4532015112830366") ≠ ("4532015112830366") :=
  c7_mask_correct.1 ("4532015112830366") (by decide)

/-- C8: The Normalizer removes exactly spaces and dashes (an order-preserving
filter), accepts exactly the all-digit results of length 12 to 19, rejects
with InvalidFormat otherwise, and a rejected input reaches no later stage of
either handler. -/
theorem c8_normalizer_correct :
    (∀ s : String, (CardService.stripFormatting s).data =
        s.data.filter (fun c => !(c == ' ' || c == '-')))
    ∧ (∀ s n : String, CardService.normalize s = some n →
        n.data = (CardService.stripFormatting s).data
        ∧ n.data.all Char.isDigit = true
        ∧ 12 ≤ n.data.length ∧ n.data.length ≤ 19)
    ∧ (∀ s : String, CardService.normalize s = none ↔
        (¬ (CardService.stripFormatting s).data.all Char.isDigit = true
          ∨ (CardService.stripFormatting s).data.length < 12
          ∨ 19 < (CardService.stripFormatting s).data.length))
    ∧ (∀ raw : String, ∀ now, CardService.normalize raw = none →
        CardService.validateHandler (some raw) now =
          ⟨200, true, some ⟨none, false, none, none⟩, none, now⟩
        ∧ ∀ holder transport cfg,
          CardService.stripeHandler (some raw) holder transport cfg now =
            ⟨400, false, none, none, some CardService.ApiError.InvalidFormat,
              now⟩) := by
  refine ⟨fun s => rfl, ?_, ?_, ?_⟩
  · intro s n h
    unfold CardService.normalize at h
    by_cases hc : CardService.isCanonical (CardService.stripFormatting s) = true
    · rw [if_pos hc] at h
      cases h
      unfold CardService.isCanonical at hc
      simp only [Bool.and_eq_true, decide_eq_true_eq] at hc
      exact ⟨rfl, hc.1.1, hc.1.2, hc.2⟩
    · rw [if_neg hc] at h
      cases h
  · intro s
    unfold CardService.normalize
    by_cases hc : CardService.isCanonical (CardService.stripFormatting s) = true
    · rw [if_pos hc]
      unfold CardService.isCanonical at hc
      simp only [Bool.and_eq_true, decide_eq_true_eq] at hc
      obtain ⟨⟨hA, h12⟩, h19⟩ := hc
      constructor
      · intro h; cases h
      · intro h
        rcases h with h | h | h
        · exact absurd hA h
        · omega
        · omega
    · rw [if_neg hc]
      unfold CardService.isCanonical at hc
      simp only [Bool.and_eq_true, decide_eq_true_eq] at hc
      constructor
      · intro _
        by_cases hA :
            (CardService.stripFormatting s).data.all Char.isDigit = true
        · rcases Nat.lt_or_ge (CardService.stripFormatting s).data.length 12
            with hl | hl
          · exact Or.inr (Or.inl hl)
          · rcases Nat.lt_or_ge 19 (CardService.stripFormatting s).data.length
              with hr | hr
            · exact Or.inr (Or.inr hr)
            · exact absurd ⟨⟨hA, hl⟩, hr⟩ hc
        · exact Or.inl hA
      · intro _; rfl
  · intro raw now h
    constructor
    · simp only [CardService.validateHandler, h]
    · intro holder transport cfg
      simp only [CardService.stripeHandler, h]

/-- Witness for C8 on an input holding spaces, a dash and a letter, which
the Normalizer rejects. -/
theorem c8_normalizer_correct_witness :
    CardService.normalize ("4532 0151-1283036a") = none ↔
      (¬ (CardService.stripFormatting ("4532 0151-1283036a")).data.all
          Char.isDigit = true
        ∨ (CardService.stripFormatting ("4532 0151-1283036a")).data.length < 12
        ∨ 19 <
            (CardService.stripFormatting ("4532 0151-1283036a")).data.length) :=
  c8_normalizer_correct.2.2.1 ("4532 0151-1283036a")

/-- C4: The validation endpoint answers 400 MissingParameter exactly when cc
is absent; every supplied cc gets an HTTP 200 answer with no error, and a cc
that fails normalization is reported with is_valid false. -/
theorem c4_validate_contract :
    (∀ now, CardService.validateHandler none now =
      ⟨400, false, none, some CardService.ApiError.MissingParameter, now⟩)
    ∧ (∀ raw : String, ∀ now,
        (CardService.validateHandler (some raw) now).status = 200
        ∧ (CardService.validateHandler (some raw) now).error = none
        ∧ ∃ p, (CardService.validateHandler (some raw) now).payload = some p
            ∧ (CardService.normalize raw = none → p.is_valid = false)) := by
  refine ⟨fun now => rfl, ?_⟩
  intro raw now
  cases hn : CardService.normalize raw with
  | none =>
    simp only [CardService.validateHandler, hn]
    exact ⟨trivial, trivial, ⟨_, rfl, fun _ => rfl⟩⟩
  | some n =>
    simp only [CardService.validateHandler, hn]
    exact ⟨trivial, trivial, ⟨_, rfl, fun h => Option.noConfusion h⟩⟩

/-- Witness for C4: the missing-parameter case and a supplied malformed cc. -/
theorem c4_validate_contract_witness :
    CardService.validateHandler none 0 =
      ⟨400, false, none, some CardService.ApiError.MissingParameter, 0⟩
    ∧ (CardService.validateHandler (some ("abc")) 0).status = 200 :=
  ⟨c4_validate_contract.1 0, (c4_validate_contract.2 ("abc") 0).1⟩

/-- C2: On the combined endpoint with a normalizable number, a Luhn failure
yields exactly the 400 response with masked echo and LuhnCheckFailed and no
charge block, and a Luhn success yields HTTP 200 whose validation block is
valid and whose charge carries the configured minor-unit amount and the last
four digits of the input. -/
theorem c2_stripe_contract :
    ∀ raw n : String, ∀ holder transport cfg now,
      CardService.normalize raw = some n →
      ((CardService.luhn_valid n = false →
          CardService.stripeHandler (some raw) holder transport cfg now =
            ⟨400, false, none, some (CardService.mask n),
              some CardService.ApiError.LuhnCheckFailed, now⟩)
       ∧ (CardService.luhn_valid n = true →
          (CardService.stripeHandler (some raw) holder transport cfg now).status
              = 200
          ∧ ∃ p,
              (CardService.stripeHandler (some raw) holder transport cfg
                  now).payload = some p
              ∧ p.card_validation.is_valid = true
              ∧ p.stripe_charge.amount = cfg.amountMinor
              ∧ p.stripe_charge.payment_method.card.last4 =
                  CardService.lastFour n)) := by
  intro raw n holder transport cfg now hn
  constructor
  · intro hl
    simp only [CardService.stripeHandler, hn]
    rw [if_neg (by simp [hl])]
  · intro hl
    simp only [CardService.stripeHandler, hn]
    rw [if_pos hl]
    exact ⟨rfl, ⟨_, rfl, rfl, rfl, rfl⟩⟩

/-- Witness for C2 at the documented Visa sample number with an unreachable
directory. -/
theorem c2_stripe_contract_witness :
    (CardService.stripeHandler (some ("4532015112830366")) none
        (fun _ => CardService.DirectoryOutcome.networkError)
        ⟨200, ("usd")⟩ 0).status = 200 :=
  ((c2_stripe_contract ("4532015112830366") ("4532015112830366") none
      (fun _ => CardService.DirectoryOutcome.networkError) ⟨200, ("usd")⟩ 0
      (by decide)).2 (by decide)).1

/-- C5: All four directory failure modes map to BinLookupFailed, the error
can only be BinLookupFailed, the client consumes exactly the first transport
outcome (a single attempt, no retries), and a failed lookup makes the
dedicated endpoint answer HTTP 404 with BinLookupFailed. -/
theorem c5_bin_failure_modes :
    (CardService.binLookup CardService.DirectoryOutcome.networkError =
        Except.error CardService.ApiError.BinLookupFailed)
    ∧ (CardService.binLookup CardService.DirectoryOutcome.timeout =
        Except.error CardService.ApiError.BinLookupFailed)
    ∧ (∀ st p, st ≠ 200 →
        CardService.binLookup (CardService.DirectoryOutcome.response st p) =
          Except.error CardService.ApiError.BinLookupFailed)
    ∧ (CardService.binLookup (CardService.DirectoryOutcome.response 200 none) =
        Except.error CardService.ApiError.BinLookupFailed)
    ∧ (∀ o e, CardService.binLookup o = Except.error e →
        e = CardService.ApiError.BinLookupFailed)
    ∧ (∀ t1 t2 : Nat → CardService.DirectoryOutcome, t1 0 = t2 0 →
        CardService.binLookupVia t1 = CardService.binLookupVia t2)
    ∧ (∀ code : String, ∀ transport now,
        CardService.binLookupVia transport =
          Except.error CardService.ApiError.BinLookupFailed →
        (CardService.binEndpoint code transport now).status = 404
        ∧ (CardService.binEndpoint code transport now).error =
            some CardService.ApiError.BinLookupFailed) := by
  refine ⟨rfl, rfl, ?_, rfl, ?_, ?_, ?_⟩
  · intro st p h
    simp only [CardService.binLookup]
    rw [if_neg h]
  · intro o e h
    cases o with
    | networkError =>
      simp only [CardService.binLookup] at h
      injection h with h1
      exact h1.symm
    | timeout =>
      simp only [CardService.binLookup] at h
      injection h with h1
      exact h1.symm
    | response st p =>
      simp only [CardService.binLookup] at h
      by_cases hst : st = 200
      · rw [if_pos hst] at h
        cases p with
        | some d => cases h
        | none =>
          injection h with h1
          exact h1.symm
      · rw [if_neg hst] at h
        injection h with h1
        exact h1.symm
  · intro t1 t2 h
    unfold CardService.binLookupVia
    rw [h]
  · intro code transport now h
    unfold CardService.binEndpoint
    rw [h]
    exact ⟨rfl, rfl⟩

/-- Witness for C5: a 404 directory answer fails the lookup and the
dedicated endpoint answers 404 on an unreachable directory. -/
theorem c5_bin_failure_modes_witness :
    CardService.binLookup (CardService.DirectoryOutcome.response 404 none) =
      Except.error CardService.ApiError.BinLookupFailed
    ∧ (CardService.binEndpoint ("999999")
        (fun _ => CardService.DirectoryOutcome.networkError) 0).status = 404 :=
  ⟨c5_bin_failure_modes.2.2.1 404 none (by decide),
   (c5_bin_failure_modes.2.2.2.2.2.2 ("999999")
      (fun _ => CardService.DirectoryOutcome.networkError) 0 rfl).1⟩

/-- C6: On the combined endpoint a BIN lookup failure never invalidates a
Luhn-valid card: for every transport, also a failing one, the response is
HTTP 200, successful, with is_valid true, and on lookup failure the
enrichment block is simply omitted. -/
theorem c6_bin_failure_not_fatal :
    ∀ raw n : String, ∀ holder transport cfg now,
      CardService.normalize raw = some n →
      CardService.luhn_valid n = true →
      (CardService.stripeHandler (some raw) holder transport cfg now).status
          = 200
      ∧ (CardService.stripeHandler (some raw) holder transport cfg now).success
          = true
      ∧ ∃ p, (CardService.stripeHandler (some raw) holder transport cfg
            now).payload = some p
          ∧ p.card_validation.is_valid = true
          ∧ (∀ e, CardService.binLookupVia transport = Except.error e →
              p.bin_lookup = none) := by
  intro raw n holder transport cfg now hn hl
  simp only [CardService.stripeHandler, hn]
  rw [if_pos hl]
  refine ⟨rfl, rfl, ⟨_, rfl, rfl, ?_⟩⟩
  intro e he
  show (CardService.binLookupVia transport).toOption = none
  rw [he]
  rfl

/-- Witness for C6 at the documented Visa sample number with a timing-out
directory. -/
theorem c6_bin_failure_not_fatal_witness :
    (CardService.stripeHandler (some ("4532015112830366")) none
        (fun _ => CardService.DirectoryOutcome.timeout)
        ⟨200, ("usd")⟩ 0).status = 200 :=
  (c6_bin_failure_not_fatal ("4532015112830366") ("4532015112830366") none
    (fun _ => CardService.DirectoryOutcome.timeout) ⟨200, ("usd")⟩ 0
    (by decide) (by decide)).1

/-- C9: The validation response fields and the dedicated lookup response
fields do not depend on the request time (identical requests get identical
fields), while the charge identifier of the combined endpoint is derived
from the request timestamp. -/
theorem c9_idempotence :
    (∀ cc t1 t2,
      (CardService.validateHandler cc t1).status =
          (CardService.validateHandler cc t2).status
      ∧ (CardService.validateHandler cc t1).payload =
          (CardService.validateHandler cc t2).payload
      ∧ (CardService.validateHandler cc t1).error =
          (CardService.validateHandler cc t2).error)
    ∧ (∀ code : String, ∀ transport t1 t2,
      (CardService.binEndpoint code transport t1).status =
          (CardService.binEndpoint code transport t2).status
      ∧ (CardService.binEndpoint code transport t1).data =
          (CardService.binEndpoint code transport t2).data
      ∧ (CardService.binEndpoint code transport t1).error =
          (CardService.binEndpoint code transport t2).error)
    ∧ (∀ raw n : String, ∀ holder transport cfg now p,
        CardService.normalize raw = some n →
        (CardService.stripeHandler (some raw) holder transport cfg
            now).payload = some p →
        p.stripe_charge.id = ("ch_") ++ Nat.repr now) := by
  refine ⟨?_, ?_, ?_⟩
  · intro cc t1 t2
    cases cc with
    | none => exact ⟨rfl, rfl, rfl⟩
    | some raw =>
      simp only [CardService.validateHandler]
      cases hn : CardService.normalize raw with
      | none => exact ⟨rfl, rfl, rfl⟩
      | some n => exact ⟨rfl, rfl, rfl⟩
  · intro code transport t1 t2
    unfold CardService.binEndpoint
    cases h : CardService.binLookupVia transport with
    | ok d => exact ⟨rfl, rfl, rfl⟩
    | error e => exact ⟨rfl, rfl, rfl⟩
  · intro raw n holder transport cfg now p hn hp
    simp only [CardService.stripeHandler, hn] at hp
    by_cases hl : CardService.luhn_valid n = true
    · rw [if_pos hl] at hp
      cases hp
      rfl
    · rw [if_neg hl] at hp
      cases hp

/-- Witness for C9: two requests to the validation endpoint at different
times carry the same payload. -/
theorem c9_idempotence_witness :
    (CardService.validateHandler (some ("4532015112830366")) 1).payload =
      (CardService.validateHandler (some ("4532015112830366")) 2).payload :=
  (c9_idempotence.1 (some ("4532015112830366")) 1 2).2.1

/-- C10: For every string stored under the telegramUser key when the Home
page mounts, the mount effect never surfaces an exception; if the parse
throws, the error is caught, the parse failure is logged and the
unauthenticated state is kept; if the parse succeeds, the logged-in state
with the parsed user is reached. -/
theorem c10_home_mount_safe :
    ∀ (α : Type) (stored : String) (jsonParse : String → Except String α),
      (∀ isAuth : Bool, ∀ user : Option α, ∀ s : HomePage.HomeState α,
        ∃ out, HomePage.homeMount α isAuth user (some stored) jsonParse s =
          Except.ok out)
      ∧ (∀ e, jsonParse stored = Except.error e →
          HomePage.homeMount α false none (some stored) jsonParse
              (HomePage.initialHomeState α)
            = Except.ok (HomePage.initialHomeState α,
                [HomePage.parseErrorLog]))
      ∧ (∀ u, jsonParse stored = Except.ok u →
          HomePage.homeMount α false none (some stored) jsonParse
              (HomePage.initialHomeState α)
            = Except.ok (⟨true, some u, true⟩, [])) := by
  intro α stored jsonParse
  refine ⟨?_, ?_, ?_⟩
  · intro isAuth user s
    cases isAuth <;> cases user <;> cases hp : jsonParse stored <;>
      simp only [HomePage.homeMount, hp] <;> exact ⟨_, rfl⟩
  · intro e he
    simp only [HomePage.homeMount, he]
  · intro u hu
    simp only [HomePage.homeMount, hu]

/-- Witness for C10: a stored value whose parse throws leaves the page
logged out with the failure logged. -/
theorem c10_home_mount_safe_witness :
    HomePage.homeMount Nat false none (some ("not json"))
        (fun _ => Except.error ("bad")) (HomePage.initialHomeState Nat)
      = Except.ok (HomePage.initialHomeState Nat, [HomePage.parseErrorLog]) :=
  (c10_home_mount_safe Nat ("not json")
    (fun _ => Except.error ("bad"))).2.1 ("bad") rfl
